import Mathlib

/-!
Verification of the wall-jump arcade game engine (two side-to-side variants
and one climbing variant).  The per-frame state update closures inside each
variant's `gameLoop`, the input handlers `jump` / `returnToSameWall`, and the
`restartGame` reset are embedded as pure functions over `ℚ`-valued state.
JavaScript numbers are modelled as rationals (all arithmetic used by the
engine is +, −, ×, ÷ by constants, max and comparisons, which are exact);
`Math.random() < 0.5` is modelled by an explicit `spawnLeft : Bool` input and
`window.innerWidth` / `window.innerHeight` by explicit `winW` / `winH`
arguments read each tick.
-/

/-- An obstacle rectangle, as in the source `Obstacle` interface. -/
structure Obstacle where
  x : ℚ
  y : ℚ
  width : ℚ
  height : ℚ
  isOnLeftWall : Bool
deriving DecidableEq, Repr

/-- The full game state, as in the source `GameState` interface of the two
side-to-side variants. -/
structure GameState where
  playerX : ℚ
  playerY : ℚ
  playerSize : ℚ
  wallWidth : ℚ
  speed : ℚ
  isOnLeftWall : Bool
  isJumping : Bool
  jumpProgress : ℚ
  timeElapsed : ℚ
  isGameOver : Bool
  obstacles : List Obstacle
  lastObstacleTime : ℚ
deriving DecidableEq, Repr

/-- The `jump` input handler: `setGameState(prev => ({...prev, isJumping: true,
jumpProgress: 0}))`. -/
def jump (prev : GameState) : GameState :=
  { prev with isJumping := true, jumpProgress := 0 }

/-- The `returnToSameWall` input handler of the side-to-side variants:
identical state change to `jump` (the wall membership field is left alone). -/
def returnToSameWall (prev : GameState) : GameState :=
  { prev with isJumping := true, jumpProgress := 0 }

/-- The initial `useState` value of the first side-to-side variant
(part_000): `playerX: 50, wallWidth: 30`, player vertically centred. -/
def initialGameState (winH : ℚ) : GameState :=
  { playerX := 50
    playerY := winH / 2 - 15
    playerSize := 30
    wallWidth := 30
    speed := 150
    isOnLeftWall := true
    isJumping := false
    jumpProgress := 0
    timeElapsed := 0
    isGameOver := false
    obstacles := []
    lastObstacleTime := 0 }

/-- The state installed by `restartGame` of the first side-to-side variant
(part_000): note `wallWidth: 40`, unlike the initial state's `30`. -/
def restartGame (winH : ℚ) : GameState :=
  { playerX := 50
    playerY := winH / 2 - 15
    playerSize := 30
    wallWidth := 40
    speed := 150
    isOnLeftWall := true
    isJumping := false
    jumpProgress := 0
    timeElapsed := 0
    isGameOver := false
    obstacles := []
    lastObstacleTime := 0 }

/-- The obstacle spawn interval of both side-to-side variants:
`Math.max(minSpawnRate, baseSpawnRate - newTimeElapsed * timeSpeedupFactor)`
with `baseSpawnRate = 1.5`, `minSpawnRate = 0.3`, `timeSpeedupFactor = 0.1`. -/
def obstacleSpawnRate (newTimeElapsed : ℚ) : ℚ :=
  max (3 / 10) (3 / 2 - newTimeElapsed * (1 / 10))

/-- The player-motion portion of the part_000 `gameLoop` update closure:
vertical pinning to mid-viewport, jump-progress advance at rate
`deltaTime * 5`, resolution (with the in-band `jumpProgress === 0` same-wall
test), mid-jump linear interpolation, and resting-position pinning.  Updates
`playerX`, `playerY`, `isOnLeftWall`, `isJumping`, `jumpProgress`. -/
def motionStep (winW winH deltaTime : ℚ) (prev : GameState) : GameState :=
  let newY := winH / 2 - prev.playerSize / 2
  if prev.isJumping then
    let newJumpProgress := prev.jumpProgress + deltaTime * 5
    if 1 ≤ newJumpProgress then
      let centerX := winW / 2
      let whiteLineWidth : ℚ := 100
      let currentPlayerCenterX := prev.playerX + prev.playerSize / 2
      let isReturningToSameWall :=
        currentPlayerCenterX ≥ centerX - whiteLineWidth / 2 ∧
          currentPlayerCenterX ≤ centerX + whiteLineWidth / 2
      let newIsOnLeftWall :=
        if isReturningToSameWall ∧ prev.jumpProgress = 0 then prev.isOnLeftWall
        else !prev.isOnLeftWall
      { prev with
        playerX :=
          if newIsOnLeftWall then prev.wallWidth + 10
          else winW - prev.wallWidth - 10 - prev.playerSize
        playerY := newY
        isOnLeftWall := newIsOnLeftWall
        isJumping := false
        jumpProgress := newJumpProgress }
    else
      let startX :=
        if prev.isOnLeftWall then prev.wallWidth + 10
        else winW - prev.wallWidth - 10 - prev.playerSize
      let centerX := winW / 2
      let whiteLineWidth : ℚ := 100
      let currentPlayerCenterX := prev.playerX + prev.playerSize / 2
      let isReturningToSameWall :=
        currentPlayerCenterX ≥ centerX - whiteLineWidth / 2 ∧
          currentPlayerCenterX ≤ centerX + whiteLineWidth / 2 ∧
          prev.jumpProgress = 0
      let endX :=
        if isReturningToSameWall then startX
        else if prev.isOnLeftWall then winW - prev.wallWidth - 10 - prev.playerSize
        else prev.wallWidth + 10
      { prev with
        playerX := startX + (endX - startX) * newJumpProgress
        playerY := newY
        jumpProgress := newJumpProgress }
  else
    { prev with
      playerX :=
        if prev.isOnLeftWall then prev.wallWidth + 10
        else winW - prev.wallWidth - 10 - prev.playerSize
      playerY := newY }

/-- One tick of the part_000 `gameLoop` state update closure: identity when
`isGameOver`, otherwise player motion, elapsed time, obstacle spawn (80×80,
at the chosen wall, starting one height above the screen), obstacle advance
at 200 px/s, culling at `winH + 100`, and the collision scan gated on same
wall and not jumping, with strict bound comparisons. -/
def gameLoopStep (winW winH : ℚ) (spawnLeft : Bool) (deltaTime : ℚ)
    (prev : GameState) : GameState :=
  if prev.isGameOver then prev
  else
    let m := motionStep winW winH deltaTime prev
    let newTimeElapsed := prev.timeElapsed + deltaTime
    let rate := obstacleSpawnRate newTimeElapsed
    let spawned :=
      if newTimeElapsed - prev.lastObstacleTime > rate then
        prev.obstacles ++
          [{ x := if spawnLeft then 0 else winW - 80
             y := -80
             width := 80
             height := 80
             isOnLeftWall := spawnLeft }]
      else prev.obstacles
    let newObstacles :=
      (spawned.map fun o => { o with y := o.y + 200 * deltaTime }).filter
        fun o => o.y < winH + 100
    let collided :=
      newObstacles.any fun o =>
        ((prev.isOnLeftWall && o.isOnLeftWall) ||
            (!prev.isOnLeftWall && !o.isOnLeftWall)) &&
          !prev.isJumping &&
          decide (m.playerX < o.x + o.width) &&
          decide (m.playerX + prev.playerSize > o.x) &&
          decide (m.playerY < o.y + o.height) &&
          decide (m.playerY + prev.playerSize > o.y)
    { m with
      timeElapsed := newTimeElapsed
      obstacles := newObstacles
      lastObstacleTime :=
        if newTimeElapsed - prev.lastObstacleTime > rate then newTimeElapsed
        else prev.lastObstacleTime
      isGameOver := collided }

/-- The initial `useState` value of the second side-to-side variant
(part_001, first component): `playerX: 30, wallWidth: 30`, player pinned at
70% of the viewport height. -/
def initialGameStateB (winH : ℚ) : GameState :=
  { playerX := 30
    playerY := winH * (7 / 10) - 15
    playerSize := 30
    wallWidth := 30
    speed := 150
    isOnLeftWall := true
    isJumping := false
    jumpProgress := 0
    timeElapsed := 0
    isGameOver := false
    obstacles := []
    lastObstacleTime := 0 }

/-- The player-motion portion of the part_001 (second side-to-side variant)
`gameLoop` update closure: vertical pinning to 70% of the viewport height,
jump-progress advance at rate `deltaTime * 2.5`, resting coordinates with no
10 px margin (`wallWidth` on the left, `winW - wallWidth - playerSize` on the
right), and the same in-band `jumpProgress === 0` same-wall resolution test
(with `whiteLineWidth = 100` inside the loop). -/
def motionStepB (winW winH deltaTime : ℚ) (prev : GameState) : GameState :=
  let newY := winH * (7 / 10) - prev.playerSize / 2
  if prev.isJumping then
    let newJumpProgress := prev.jumpProgress + deltaTime * (5 / 2)
    if 1 ≤ newJumpProgress then
      let centerX := winW / 2
      let whiteLineWidth : ℚ := 100
      let currentPlayerCenterX := prev.playerX + prev.playerSize / 2
      let isReturningToSameWall :=
        currentPlayerCenterX ≥ centerX - whiteLineWidth / 2 ∧
          currentPlayerCenterX ≤ centerX + whiteLineWidth / 2
      let newIsOnLeftWall :=
        if isReturningToSameWall ∧ prev.jumpProgress = 0 then prev.isOnLeftWall
        else !prev.isOnLeftWall
      { prev with
        playerX :=
          if newIsOnLeftWall then prev.wallWidth
          else winW - prev.wallWidth - prev.playerSize
        playerY := newY
        isOnLeftWall := newIsOnLeftWall
        isJumping := false
        jumpProgress := newJumpProgress }
    else
      let startX :=
        if prev.isOnLeftWall then prev.wallWidth
        else winW - prev.wallWidth - prev.playerSize
      let centerX := winW / 2
      let whiteLineWidth : ℚ := 100
      let currentPlayerCenterX := prev.playerX + prev.playerSize / 2
      let isReturningToSameWall :=
        currentPlayerCenterX ≥ centerX - whiteLineWidth / 2 ∧
          currentPlayerCenterX ≤ centerX + whiteLineWidth / 2 ∧
          prev.jumpProgress = 0
      let endX :=
        if isReturningToSameWall then startX
        else if prev.isOnLeftWall then winW - prev.wallWidth - prev.playerSize
        else prev.wallWidth
      { prev with
        playerX := startX + (endX - startX) * newJumpProgress
        playerY := newY
        jumpProgress := newJumpProgress }
  else
    { prev with
      playerX :=
        if prev.isOnLeftWall then prev.wallWidth
        else winW - prev.wallWidth - prev.playerSize
      playerY := newY }

/-- One tick of the part_001 (second side-to-side variant) `gameLoop` state
update closure: identity when `isGameOver`; obstacles spawn with width equal
to `prev.wallWidth` flush against the chosen wall; the collision scan runs
over every obstacle regardless of wall side or jumping state, with inclusive
bound comparisons (`>=` / `<=`). -/
def gameLoopStepB (winW winH : ℚ) (spawnLeft : Bool) (deltaTime : ℚ)
    (prev : GameState) : GameState :=
  if prev.isGameOver then prev
  else
    let m := motionStepB winW winH deltaTime prev
    let newTimeElapsed := prev.timeElapsed + deltaTime
    let rate := obstacleSpawnRate newTimeElapsed
    let spawned :=
      if newTimeElapsed - prev.lastObstacleTime > rate then
        prev.obstacles ++
          [{ x := if spawnLeft then 0 else winW - prev.wallWidth
             y := -80
             width := prev.wallWidth
             height := 80
             isOnLeftWall := spawnLeft }]
      else prev.obstacles
    let newObstacles :=
      (spawned.map fun o => { o with y := o.y + 200 * deltaTime }).filter
        fun o => o.y < winH + 100
    let collided :=
      prev.isGameOver ||
        newObstacles.any fun o =>
          decide (m.playerX + prev.playerSize ≥ o.x) &&
            decide (m.playerX ≤ o.x + o.width) &&
            decide (m.playerY + prev.playerSize ≥ o.y) &&
            decide (m.playerY ≤ o.y + o.height)
    { m with
      timeElapsed := newTimeElapsed
      obstacles := newObstacles
      lastObstacleTime :=
        if newTimeElapsed - prev.lastObstacleTime > rate then newTimeElapsed
        else prev.lastObstacleTime
      isGameOver := collided }

/-- The game state of the climbing variant (part_001, second component),
which has no obstacle fields. -/
structure GameStateClimb where
  playerX : ℚ
  playerY : ℚ
  playerSize : ℚ
  wallWidth : ℚ
  speed : ℚ
  isOnLeftWall : Bool
  isJumping : Bool
  jumpProgress : ℚ
  timeElapsed : ℚ
  isGameOver : Bool
deriving DecidableEq, Repr

/-- One tick of the climbing variant `gameLoop` state update closure:
identity when `isGameOver`; the player climbs (`y` decreases by
`speed * deltaTime`), jumps always flip walls, and game over triggers when
the player reaches the top (`newY ≤ 0`). -/
def gameLoopStepClimb (winW : ℚ) (deltaTime : ℚ)
    (prev : GameStateClimb) : GameStateClimb :=
  if prev.isGameOver then prev
  else
    let newY := prev.playerY - prev.speed * deltaTime
    let m :=
      if prev.isJumping then
        let newJumpProgress := prev.jumpProgress + deltaTime * 5
        if 1 ≤ newJumpProgress then
          { prev with
            playerX :=
              if !prev.isOnLeftWall then prev.wallWidth + 10
              else winW - prev.wallWidth - 10 - prev.playerSize
            playerY := newY
            isOnLeftWall := !prev.isOnLeftWall
            isJumping := false
            jumpProgress := newJumpProgress }
        else
          let startX :=
            if prev.isOnLeftWall then prev.wallWidth + 10
            else winW - prev.wallWidth - 10 - prev.playerSize
          let endX :=
            if prev.isOnLeftWall then winW - prev.wallWidth - 10 - prev.playerSize
            else prev.wallWidth + 10
          { prev with
            playerX := startX + (endX - startX) * newJumpProgress
            playerY := newY
            jumpProgress := newJumpProgress }
      else
        { prev with
          playerX :=
            if prev.isOnLeftWall then prev.wallWidth + 10
            else winW - prev.wallWidth - 10 - prev.playerSize
          playerY := newY }
    { m with
      timeElapsed := prev.timeElapsed + deltaTime
      isGameOver := decide (newY ≤ 0) }

/-- The initial `useState` value of the climbing variant (part_001, second
component): `playerX: 50, wallWidth: 40`, player starting 200 px above the
bottom of the screen. -/
def initialClimbState (winH : ℚ) : GameStateClimb :=
  { playerX := 50
    playerY := winH - 200
    playerSize := 30
    wallWidth := 40
    speed := 150
    isOnLeftWall := true
    isJumping := false
    jumpProgress := 0
    timeElapsed := 0
    isGameOver := false }

/-- The resting x coordinate a non-jumping player is pinned to each tick in
the part_000 variant: `wallWidth + 10` on the left wall,
`winW - wallWidth - 10 - playerSize` on the right wall. -/
def restingX (winW : ℚ) (s : GameState) : ℚ :=
  if s.isOnLeftWall then s.wallWidth + 10
  else winW - s.wallWidth - 10 - s.playerSize

/-- States of the part_000 variant reachable from its initial state through
frame ticks (with nonnegative delta time) and the input paths the handlers
expose: `jump` when not jumping, `returnToSameWall` when jumping with the
player's horizontal centre inside the 100 px midline band, and `restartGame`
from the game-over modal. -/
inductive ReachableV0 : GameState → Prop where
  | start (winH : ℚ) : ReachableV0 (initialGameState winH)
  | tick (winW winH : ℚ) (spawnLeft : Bool) (deltaTime : ℚ) (s : GameState)
      (hdt : 0 ≤ deltaTime) (hs : ReachableV0 s) :
      ReachableV0 (gameLoopStep winW winH spawnLeft deltaTime s)
  | pressJump (s : GameState) (hj : s.isJumping = false) (hs : ReachableV0 s) :
      ReachableV0 (jump s)
  | pressReturn (winW : ℚ) (s : GameState) (hj : s.isJumping = true)
      (hband : s.playerX + s.playerSize / 2 ≥ winW / 2 - 100 / 2 ∧
        s.playerX + s.playerSize / 2 ≤ winW / 2 + 100 / 2)
      (hs : ReachableV0 s) : ReachableV0 (returnToSameWall s)
  | pressRestart (winH : ℚ) (s : GameState) (hgo : s.isGameOver = true)
      (hs : ReachableV0 s) : ReachableV0 (restartGame winH)

/-- Resting state one zero-length tick after the part_000 initial state,
pinning the player to the left resting position x = 40. -/
def c1Rest : GameState := gameLoopStep 1000 600 false 0 (initialGameState 600)

/-- Mid-jump state of a fresh left-wall jump after one 0.1 s tick: the
player sits at x = 485 with centre 500, inside the midline band. -/
def c1Mid : GameState := gameLoopStep 1000 600 false (1 / 10) (jump c1Rest)

/-- State two 0.1 s ticks after a same-wall return was initiated from
`c1Mid` (the secondary action accepted in the band): the return jump has
resolved. -/
def c1End : GameState :=
  gameLoopStep 1000 600 false (1 / 10)
    (gameLoopStep 1000 600 false (1 / 10) (returnToSameWall c1Mid))

/-- State of the part_001 side-to-side variant after one 1.41 s tick from
its initial state: a single obstacle has spawned on the right wall. -/
def c2s1 : GameState :=
  gameLoopStepB 1000 1000 false (141 / 100) (initialGameStateB 1000)

/-- The state `c2s1` after the primary action starts a jump. -/
def c2s2 : GameState := jump c2s1

/-- A game-over state of the part_000 variant, used to exercise the frozen
update. -/
def gameOverState : GameState := { initialGameState 600 with isGameOver := true }

/-- A game-over state of the climbing variant. -/
def gameOverClimbState : GameStateClimb :=
  { initialClimbState 600 with isGameOver := true }

/-- The spec collision scenario for the part_000 variant: player box
`{x:40, y:300, w:30, h:30}` resting on the left wall (wallWidth 30, so the
resting x is 40; winH 630 pins y to 300) with a same-wall obstacle box
`{x:40, y:300, w:80, h:80}`. -/
def c4BoxState : GameState :=
  { playerX := 40
    playerY := 300
    playerSize := 30
    wallWidth := 30
    speed := 150
    isOnLeftWall := true
    isJumping := false
    jumpProgress := 0
    timeElapsed := 0
    isGameOver := false
    obstacles := [{ x := 40, y := 300, width := 80, height := 80, isOnLeftWall := true }]
    lastObstacleTime := 0 }

/-- Same player as `c4BoxState` but with a same-wall obstacle whose left
edge exactly touches the player's right edge (zero-area contact at x = 70). -/
def c4EdgeState : GameState :=
  { c4BoxState with
    obstacles := [{ x := 70, y := 300, width := 80, height := 80, isOnLeftWall := true }] }

/-- A part_001 side-to-side state whose single same-wall obstacle touches the
player box exactly at the corner (player box [40,70]×[300,330] with winH 450
and wallWidth 40; obstacle box [70,100]×[330,410]). -/
def c4TouchStateB : GameState :=
  { playerX := 40
    playerY := 300
    playerSize := 30
    wallWidth := 40
    speed := 150
    isOnLeftWall := true
    isJumping := false
    jumpProgress := 0
    timeElapsed := 0
    isGameOver := false
    obstacles := [{ x := 70, y := 330, width := 30, height := 80, isOnLeftWall := true }]
    lastObstacleTime := 0 }

/-- A copy of the spec collision scenario used to instantiate the same-wall
collision characterisation. -/
def c2SameWallState : GameState :=
  { playerX := 40
    playerY := 300
    playerSize := 30
    wallWidth := 30
    speed := 150
    isOnLeftWall := true
    isJumping := false
    jumpProgress := 0
    timeElapsed := 0
    isGameOver := false
    obstacles := [{ x := 40, y := 300, width := 80, height := 80, isOnLeftWall := true }]
    lastObstacleTime := 0 }

/-- Resting state one zero-length tick after the part_000 initial state in a
200 px wide viewport: the resting centre x = 55 lies inside the 100 px
midline band [50, 150]. -/
def c6Rest : GameState := gameLoopStep 200 600 false 0 (initialGameState 600)

/-- The state one 0.2 s tick after a fresh (primary-action) jump from
`c6Rest`: the jump resolves on its very first tick. -/
def c6End : GameState := gameLoopStep 200 600 false (1 / 5) (jump c6Rest)

/-- A mid-jump left-wall state (progress one half, player centre 500) used
to instantiate the resolution theorem. -/
def c6WitState : GameState :=
  { playerX := 485
    playerY := 285
    playerSize := 30
    wallWidth := 30
    speed := 150
    isOnLeftWall := true
    isJumping := true
    jumpProgress := 1 / 2
    timeElapsed := 0
    isGameOver := false
    obstacles := []
    lastObstacleTime := 0 }

/-- State reached from the part_000 initial state by a fresh jump and one
0.4 s tick: the jump resolves with the raw progress value 2 stored. -/
def c8State : GameState :=
  gameLoopStep 1000 600 false (2 / 5) (jump (initialGameState 600))

theorem motionStep_not_jumping (winW winH deltaTime : ℚ) (s : GameState)
    (hj : s.isJumping = false) :
    (motionStep winW winH deltaTime s).playerX = restingX winW s ∧
      (motionStep winW winH deltaTime s).playerY = winH / 2 - s.playerSize / 2 := by
  simp [motionStep, restingX, hj]

/-- C3: once `gameOver` is true the per-frame update of every variant
returns the state unchanged, hence repeated updates are idempotent, and the
jump command leaves the obstacles, the elapsed time and the player position
of a game-over state untouched. -/
theorem c3_gameover_update_noop (winW winH : ℚ) (spawnLeft : Bool)
    (deltaTime : ℚ) (s : GameState) (c : GameStateClimb)
    (hs : s.isGameOver = true) (hc : c.isGameOver = true) :
    gameLoopStep winW winH spawnLeft deltaTime s = s ∧
      gameLoopStep winW winH spawnLeft deltaTime
          (gameLoopStep winW winH spawnLeft deltaTime s) =
        gameLoopStep winW winH spawnLeft deltaTime s ∧
      gameLoopStepB winW winH spawnLeft deltaTime s = s ∧
      gameLoopStepClimb winW deltaTime c = c ∧
      (jump s).timeElapsed = s.timeElapsed ∧
      (jump s).obstacles = s.obstacles ∧
      (jump s).playerX = s.playerX ∧ (jump s).playerY = s.playerY := by
  have h1 : gameLoopStep winW winH spawnLeft deltaTime s = s := by
    simp [gameLoopStep, hs]
  exact ⟨h1, by rw [h1]; exact h1, by simp [gameLoopStepB, hs],
    by simp [gameLoopStepClimb, hc], by simp [jump], by simp [jump],
    by simp [jump], by simp [jump]⟩

/-- Witness for C3 at a concrete game-over state. -/
theorem c3_gameover_update_noop_witness :
    gameLoopStep 1000 600 false 1 gameOverState = gameOverState :=
  (c3_gameover_update_noop 1000 600 false 1 gameOverState gameOverClimbState
    rfl rfl).1

/-- C7 counterexample: the part_000 `restartGame` does not replace the whole
state with the initial-run constants; it installs `wallWidth = 40` although
the run starts with `wallWidth = 30`. -/
theorem c7_restart_not_full_initial_reset :
    (restartGame 600).wallWidth = 40 ∧ (initialGameState 600).wallWidth = 30 :=
  ⟨rfl, rfl⟩

/-- C7 amended: restart resets the elapsed time, the game-over flag, the
obstacle list, the player position and the jump state to the initial-run
values, but the wall thickness it installs is 40 whereas the initial state
uses 30, so the produced state is not the initial state. -/
theorem c7_restart_resets_run_fields (winH : ℚ) :
    (restartGame winH).timeElapsed = 0 ∧
      (restartGame winH).isGameOver = false ∧
      (restartGame winH).obstacles = [] ∧
      (restartGame winH).playerX = (initialGameState winH).playerX ∧
      (restartGame winH).playerY = (initialGameState winH).playerY ∧
      (restartGame winH).isOnLeftWall = true ∧
      (restartGame winH).isJumping = false ∧
      (restartGame winH).jumpProgress = 0 ∧
      (restartGame winH).wallWidth = 40 ∧
      (initialGameState winH).wallWidth = 30 := by
  simp [restartGame, initialGameState]

/-- Witness for C7 amended at a concrete viewport height. -/
theorem c7_restart_resets_run_fields_witness :
    (restartGame 600).timeElapsed = 0 ∧
      (restartGame 600).isGameOver = false ∧
      (restartGame 600).obstacles = [] ∧
      (restartGame 600).playerX = (initialGameState 600).playerX ∧
      (restartGame 600).playerY = (initialGameState 600).playerY ∧
      (restartGame 600).isOnLeftWall = true ∧
      (restartGame 600).isJumping = false ∧
      (restartGame 600).jumpProgress = 0 ∧
      (restartGame 600).wallWidth = 40 ∧
      (initialGameState 600).wallWidth = 30 :=
  c7_restart_resets_run_fields 600

/-- C9 counterexample: at `deltaTime = 0` the update of a non-game-over
state leaves `elapsedTime` unchanged, so the update does not strictly
increase it for every nonnegative delta. -/
theorem c9_zero_delta_no_strict_increase :
    (initialGameState 600).isGameOver = false ∧
      (gameLoopStep 1000 600 false 0 (initialGameState 600)).timeElapsed =
        (initialGameState 600).timeElapsed := by
  norm_num [gameLoopStep, motionStep, initialGameState, obstacleSpawnRate]

/-- C9 amended: the update of a non-game-over state changes `elapsedTime` by
exactly `deltaTime` in all three variants, and the increase is strict
whenever `deltaTime` is positive. -/
theorem c9_elapsed_time_exact (winW winH : ℚ) (spawnLeft : Bool)
    (deltaTime : ℚ) (s : GameState) (c : GameStateClimb)
    (hs : s.isGameOver = false) (hc : c.isGameOver = false) :
    (gameLoopStep winW winH spawnLeft deltaTime s).timeElapsed =
        s.timeElapsed + deltaTime ∧
      (gameLoopStepB winW winH spawnLeft deltaTime s).timeElapsed =
        s.timeElapsed + deltaTime ∧
      (gameLoopStepClimb winW deltaTime c).timeElapsed =
        c.timeElapsed + deltaTime ∧
      (0 < deltaTime →
        s.timeElapsed <
          (gameLoopStep winW winH spawnLeft deltaTime s).timeElapsed) := by
  have h1 : (gameLoopStep winW winH spawnLeft deltaTime s).timeElapsed =
      s.timeElapsed + deltaTime := by
    simp [gameLoopStep, hs]
  refine ⟨h1, by simp [gameLoopStepB, hs], by simp [gameLoopStepClimb, hc],
    fun hdt => ?_⟩
  rw [h1]
  linarith

/-- Witness for C9 amended at a concrete tick. -/
theorem c9_elapsed_time_exact_witness :
    (gameLoopStep 1000 600 false 1 (initialGameState 600)).timeElapsed =
      (initialGameState 600).timeElapsed + 1 :=
  (c9_elapsed_time_exact 1000 600 false 1 (initialGameState 600)
    (initialClimbState 600) rfl rfl).1

/-- C2 counterexample: in the part_001 side-to-side variant an obstacle on
the wall opposite the player does set `gameOver`.  From the initial state,
one 1.41 s tick spawns a right-wall obstacle while the player rests on the
left wall; after the primary action starts a jump, the 2.2 s tick resolves
the jump onto the right wall and the collision scan (which ignores wall
membership) finds the player box [940,970]×[685,715] touching the
opposite-wall obstacle box [970,1000]×[642,722], so `gameOver` becomes
true although the state's only obstacle is on the opposite wall from the
player's `isOnLeftWall`. -/
theorem c2_opposite_wall_gameover_in_variantB :
    c2s2.isGameOver = false ∧ c2s2.isOnLeftWall = true ∧
      c2s2.obstacles =
        [{ x := 970, y := 202, width := 30, height := 80, isOnLeftWall := false }] ∧
      (gameLoopStepB 1000 1000 false (11 / 5) c2s2).isGameOver = true := by
  norm_num [c2s2, c2s1, gameLoopStepB, motionStepB, initialGameStateB,
    obstacleSpawnRate, jump]

/-- C2 amended: in the part_000 side-to-side variant the claim holds — a
tick can only set `gameOver` because of an obstacle on the same wall as the
player, so an obstacle on the opposite wall never triggers game over there;
in the part_001 variant the collision scan ignores wall membership and the
claim fails. -/
theorem c2_gameover_requires_same_wall (winW winH : ℚ) (spawnLeft : Bool)
    (deltaTime : ℚ) (s : GameState) (hgo : s.isGameOver = false)
    (h : (gameLoopStep winW winH spawnLeft deltaTime s).isGameOver = true) :
    ∃ o ∈ (gameLoopStep winW winH spawnLeft deltaTime s).obstacles,
      o.isOnLeftWall = s.isOnLeftWall := by
  simp only [gameLoopStep, hgo, Bool.false_eq_true, if_false] at h ⊢
  rw [List.any_eq_true] at h
  obtain ⟨o, ho, hpred⟩ := h
  refine ⟨o, ho, ?_⟩
  cases hs : s.isOnLeftWall <;> cases hob : o.isOnLeftWall <;> simp_all

/-- Witness for C2 amended: the spec collision scenario triggers game over
in the part_000 variant, and the characterisation exhibits the same-wall
obstacle responsible. -/
theorem c2_gameover_requires_same_wall_witness :
    ∃ o ∈ (gameLoopStep 1000 630 false 0 c2SameWallState).obstacles,
      o.isOnLeftWall = c2SameWallState.isOnLeftWall :=
  c2_gameover_requires_same_wall 1000 630 false 0 c2SameWallState rfl
    (by norm_num [c2SameWallState, gameLoopStep, motionStep, obstacleSpawnRate])

/-- C4 counterexample: in the part_000 variant the collision comparisons are
strict, so a same-wall obstacle whose left edge exactly touches the player's
right edge (shared boundary x = 70, overlapping y range) does not set
`gameOver` on that tick. -/
theorem c4_edge_touch_not_collision_in_variantA :
    c4EdgeState.isJumping = false ∧ c4EdgeState.isGameOver = false ∧
      c4EdgeState.playerX + c4EdgeState.playerSize = 70 ∧
      c4EdgeState.obstacles =
        [{ x := 70, y := 300, width := 80, height := 80, isOnLeftWall := true }] ∧
      (gameLoopStep 1000 630 false 0 c4EdgeState).isGameOver = false := by
  norm_num [c4EdgeState, c4BoxState, gameLoopStep, motionStep, obstacleSpawnRate]

/-- C4 amended: a same-wall obstacle whose box strictly overlaps the resting
player box on a tick where the player is not jumping sets `gameOver` in the
part_000 variant; the spec box scenario (player `{x:40,y:300,w:30,h:30}`,
obstacle `{x:40,y:300,w:80,h:80}`) does trigger game over there; mere
edge-touching counts as a collision only in the part_001 variant, whose
comparisons are inclusive. -/
theorem c4_same_wall_overlap_collides :
    (∀ (winW winH : ℚ) (spawnLeft : Bool) (deltaTime : ℚ) (s : GameState)
        (o : Obstacle), s.isGameOver = false → s.isJumping = false →
      o ∈ s.obstacles → o.isOnLeftWall = s.isOnLeftWall →
      o.y + 200 * deltaTime < winH + 100 →
      restingX winW s < o.x + o.width →
      restingX winW s + s.playerSize > o.x →
      winH / 2 - s.playerSize / 2 < o.y + 200 * deltaTime + o.height →
      winH / 2 - s.playerSize / 2 + s.playerSize > o.y + 200 * deltaTime →
      (gameLoopStep winW winH spawnLeft deltaTime s).isGameOver = true) ∧
    (gameLoopStep 1000 630 false 0 c4BoxState).isGameOver = true ∧
    (gameLoopStepB 1000 450 false 0 c4TouchStateB).isGameOver = true := by
  refine ⟨?_, ?_, ?_⟩
  · intro winW winH spawnLeft deltaTime s o hgo hj ho hw hcull h1 h2 h3 h4
    have hm := motionStep_not_jumping winW winH deltaTime s hj
    simp only [gameLoopStep, hgo, Bool.false_eq_true, if_false]
    rw [List.any_eq_true]
    refine ⟨{ o with y := o.y + 200 * deltaTime }, ?_, ?_⟩
    · refine List.mem_filter.mpr ⟨List.mem_map_of_mem _ ?_, ?_⟩
      · by_cases hsp : s.timeElapsed + deltaTime - s.lastObstacleTime >
            obstacleSpawnRate (s.timeElapsed + deltaTime)
        · rw [if_pos hsp]; exact List.mem_append_left _ ho
        · rw [if_neg hsp]; exact ho
      · simpa using hcull
    · simp only [hm.1, hm.2, hj, hw]
      simp [h1, h2, h3, h4]
  · norm_num [c4BoxState, gameLoopStep, motionStep, obstacleSpawnRate]
  · norm_num [c4TouchStateB, gameLoopStepB, motionStepB, obstacleSpawnRate]

/-- Witness for the general part of C4 amended, instantiated at the spec box
scenario. -/
theorem c4_same_wall_overlap_collides_witness :
    (gameLoopStep 1000 630 false 0 c4BoxState).isGameOver = true :=
  c4_same_wall_overlap_collides.1 1000 630 false 0 c4BoxState
    { x := 40, y := 300, width := 80, height := 80, isOnLeftWall := true }
    rfl rfl (by simp [c4BoxState]) rfl (by norm_num)
    (by norm_num [c4BoxState, restingX]) (by norm_num [c4BoxState, restingX])
    (by norm_num [c4BoxState]) (by norm_num [c4BoxState])

/-- C5: the spawn interval is the clamped linear ramp, it is antitone in the
elapsed time, takes the documented values at 0, 12 and beyond, and on a tick
whose obstacles all survive culling, exactly one obstacle is appended and
`lastObstacleTime` is set to the new elapsed time when the gap exceeds the
interval, while nothing is spawned and `lastObstacleTime` is kept otherwise. -/
theorem c5_spawn_interval_behavior :
    (∀ t1 t2 : ℚ, t1 ≤ t2 → obstacleSpawnRate t2 ≤ obstacleSpawnRate t1) ∧
      obstacleSpawnRate 0 = 3 / 2 ∧
      obstacleSpawnRate 12 = 3 / 10 ∧
      (∀ t : ℚ, 12 ≤ t → obstacleSpawnRate t = 3 / 10) ∧
      (∀ (winW winH : ℚ) (spawnLeft : Bool) (deltaTime : ℚ) (s : GameState),
        s.isGameOver = false →
        (∀ o ∈ s.obstacles, o.y + 200 * deltaTime < winH + 100) →
        (-80 : ℚ) + 200 * deltaTime < winH + 100 →
        (s.timeElapsed + deltaTime - s.lastObstacleTime >
            obstacleSpawnRate (s.timeElapsed + deltaTime) →
          (gameLoopStep winW winH spawnLeft deltaTime s).obstacles.length =
              s.obstacles.length + 1 ∧
            (gameLoopStep winW winH spawnLeft deltaTime s).lastObstacleTime =
              s.timeElapsed + deltaTime) ∧
        (s.timeElapsed + deltaTime - s.lastObstacleTime ≤
            obstacleSpawnRate (s.timeElapsed + deltaTime) →
          (gameLoopStep winW winH spawnLeft deltaTime s).obstacles.length =
              s.obstacles.length ∧
            (gameLoopStep winW winH spawnLeft deltaTime s).lastObstacleTime =
              s.lastObstacleTime)) := by
  refine ⟨?_, ?_, ?_, ?_, ?_⟩
  · intro t1 t2 h
    simp only [obstacleSpawnRate]
    exact max_le_max le_rfl (by linarith)
  · norm_num [obstacleSpawnRate]
  · norm_num [obstacleSpawnRate]
  · intro t ht
    simp only [obstacleSpawnRate]
    exact max_eq_left (by linarith)
  · intro winW winH spawnLeft deltaTime s hgo hok hnew
    have hfil : ∀ l : List Obstacle,
        (∀ o ∈ l, o.y + 200 * deltaTime < winH + 100) →
        ((l.map fun o => { o with y := o.y + 200 * deltaTime }).filter
            fun o => o.y < winH + 100) =
          l.map fun o => { o with y := o.y + 200 * deltaTime } := by
      intro l hl
      rw [List.filter_eq_self]
      intro a ha
      rw [List.mem_map] at ha
      obtain ⟨o, ho, rfl⟩ := ha
      simpa using hl o ho
    constructor
    · intro hsp
      simp only [gameLoopStep, hgo, Bool.false_eq_true, if_false]
      rw [if_pos hsp, if_pos hsp]
      have hall : ∀ o ∈ s.obstacles ++
          [{ x := if spawnLeft then 0 else winW - 80, y := -80, width := 80,
             height := 80, isOnLeftWall := spawnLeft }],
          o.y + 200 * deltaTime < winH + 100 := by
        intro o ho
        rcases List.mem_append.mp ho with h | h
        · exact hok o h
        · simp only [List.mem_singleton] at h
          subst h
          simpa using hnew
      rw [hfil _ hall]
      simp
    · intro hle
      have hsp : ¬ s.timeElapsed + deltaTime - s.lastObstacleTime >
          obstacleSpawnRate (s.timeElapsed + deltaTime) := not_lt.mpr hle
      simp only [gameLoopStep, hgo, Bool.false_eq_true, if_false]
      rw [if_neg hsp, if_neg hsp]
      rw [hfil _ hok]
      simp

/-- Witness for C5 at concrete inputs: antitonicity at 0 and 1, the clamp at
20, and a spawning tick from the initial state. -/
theorem c5_spawn_interval_behavior_witness :
    obstacleSpawnRate 1 ≤ obstacleSpawnRate 0 ∧
      obstacleSpawnRate 20 = 3 / 10 ∧
      (gameLoopStep 1000 600 false (8 / 5) (initialGameState 600)).obstacles.length =
          (initialGameState 600).obstacles.length + 1 ∧
        (gameLoopStep 1000 600 false (8 / 5) (initialGameState 600)).lastObstacleTime =
          (initialGameState 600).timeElapsed + 8 / 5 :=
  ⟨c5_spawn_interval_behavior.1 0 1 (by norm_num),
    c5_spawn_interval_behavior.2.2.2.1 20 (by norm_num),
    (c5_spawn_interval_behavior.2.2.2.2 1000 600 false (8 / 5)
        (initialGameState 600) rfl (by simp [initialGameState]) (by norm_num)).1
      (by norm_num [initialGameState, obstacleSpawnRate, max_def])⟩

/-- C6 counterexample: in a 200 px wide viewport the left resting centre
x = 55 lies inside the 100 px midline band, so a fresh primary-action jump
(no same-wall return) from the left wall that resolves on its first tick
satisfies the code's `jumpProgress === 0` in-band test and ends still on the
left wall at x = 40 instead of flipping to the right resting coordinate. -/
theorem c6_fresh_jump_can_stay_left :
    (jump c6Rest).isJumping = true ∧ (jump c6Rest).jumpProgress = 0 ∧
      (jump c6Rest).isOnLeftWall = true ∧
      c6End.isJumping = false ∧ c6End.jumpProgress = 1 ∧
      c6End.isOnLeftWall = true ∧ c6End.playerX = 40 := by
  norm_num [c6End, c6Rest, gameLoopStep, motionStep, initialGameState,
    obstacleSpawnRate, jump]

theorem motionStep_resolves (winW winH deltaTime : ℚ) (s : GameState)
    (hj : s.isJumping = true) (hres : 1 ≤ s.jumpProgress + deltaTime * 5)
    (hnr : ¬((s.playerX + s.playerSize / 2 ≥ winW / 2 - 100 / 2 ∧
        s.playerX + s.playerSize / 2 ≤ winW / 2 + 100 / 2) ∧
        s.jumpProgress = 0)) :
    motionStep winW winH deltaTime s =
      { s with
        playerX := if !s.isOnLeftWall then s.wallWidth + 10
          else winW - s.wallWidth - 10 - s.playerSize
        playerY := winH / 2 - s.playerSize / 2
        isOnLeftWall := !s.isOnLeftWall
        isJumping := false
        jumpProgress := s.jumpProgress + deltaTime * 5 } := by
  simp only [motionStep]
  rw [if_pos hj, if_pos hres, if_neg hnr]

/-- C6 amended: a left-wall jump that resolves on a tick not satisfying the
code's same-wall test (player centre inside the midline band with a pre-tick
`jumpProgress` of 0) ends with `onLeftWall = false` and the player exactly
at the right resting coordinate `winW − wallWidth − 10 − playerSize`. -/
theorem c6_resolved_left_jump_flips_right (winW winH : ℚ) (spawnLeft : Bool)
    (deltaTime : ℚ) (s : GameState) (hgo : s.isGameOver = false)
    (hj : s.isJumping = true) (hleft : s.isOnLeftWall = true)
    (hres : 1 ≤ s.jumpProgress + deltaTime * 5)
    (hnr : ¬((s.playerX + s.playerSize / 2 ≥ winW / 2 - 100 / 2 ∧
        s.playerX + s.playerSize / 2 ≤ winW / 2 + 100 / 2) ∧
        s.jumpProgress = 0)) :
    (gameLoopStep winW winH spawnLeft deltaTime s).isOnLeftWall = false ∧
      (gameLoopStep winW winH spawnLeft deltaTime s).playerX =
        winW - s.wallWidth - 10 - s.playerSize := by
  have hkey := motionStep_resolves winW winH deltaTime s hj hres hnr
  simp only [gameLoopStep, hgo, Bool.false_eq_true, if_false]
  rw [hkey]
  simp [hleft]

/-- Witness for C6 amended on a concrete mid-jump state resolving outside
the same-wall test. -/
theorem c6_resolved_left_jump_flips_right_witness :
    (gameLoopStep 1000 600 false (1 / 10) c6WitState).isOnLeftWall = false ∧
      (gameLoopStep 1000 600 false (1 / 10) c6WitState).playerX =
        1000 - c6WitState.wallWidth - 10 - c6WitState.playerSize :=
  c6_resolved_left_jump_flips_right 1000 600 false (1 / 10) c6WitState rfl rfl
    rfl (by norm_num [c6WitState]) (by norm_num [c6WitState])

theorem motionStep_progress_bounds (winW winH deltaTime : ℚ) (s : GameState)
    (hdt : 0 ≤ deltaTime) (h0 : 0 ≤ s.jumpProgress)
    (_h1 : s.isJumping = true → s.jumpProgress < 1) :
    0 ≤ (motionStep winW winH deltaTime s).jumpProgress ∧
      ((motionStep winW winH deltaTime s).isJumping = true →
        (motionStep winW winH deltaTime s).jumpProgress < 1) := by
  have h5 : 0 ≤ deltaTime * 5 := by positivity
  by_cases hj : s.isJumping = true
  · by_cases hres : 1 ≤ s.jumpProgress + deltaTime * 5
    · constructor
      · simp only [motionStep]
        rw [if_pos hj, if_pos hres]
        simp only []
        linarith
      · simp only [motionStep]
        rw [if_pos hj, if_pos hres]
        simp
    · constructor
      · simp only [motionStep]
        rw [if_pos hj, if_neg hres]
        simp only []
        linarith
      · simp only [motionStep]
        rw [if_pos hj, if_neg hres]
        intro _
        push_neg at hres
        simpa using hres
  · constructor
    · simp only [motionStep]
      rw [if_neg hj]
      simpa using h0
    · simp only [motionStep]
      rw [if_neg hj]
      intro hcontra
      simp only [] at hcontra
      exact absurd hcontra hj

theorem gameLoopStep_progress_bounds (winW winH : ℚ) (spawnLeft : Bool)
    (deltaTime : ℚ) (s : GameState) (hdt : 0 ≤ deltaTime)
    (h0 : 0 ≤ s.jumpProgress) (h1 : s.isJumping = true → s.jumpProgress < 1) :
    0 ≤ (gameLoopStep winW winH spawnLeft deltaTime s).jumpProgress ∧
      ((gameLoopStep winW winH spawnLeft deltaTime s).isJumping = true →
        (gameLoopStep winW winH spawnLeft deltaTime s).jumpProgress < 1) := by
  by_cases hgo : s.isGameOver = true
  · rw [show gameLoopStep winW winH spawnLeft deltaTime s = s from by
      simp [gameLoopStep, hgo]]
    exact ⟨h0, h1⟩
  · have hgo2 : s.isGameOver = false := by
      cases h : s.isGameOver
      · rfl
      · exact absurd h hgo
    have hm := motionStep_progress_bounds winW winH deltaTime s hdt h0 h1
    simp only [gameLoopStep, hgo2, Bool.false_eq_true, if_false]
    exact hm

/-- C8 counterexample: the state reached from the part_000 initial state by
a fresh jump and a 0.4 s tick is reachable yet stores `jumpProgress = 2`,
because the completing tick writes the raw advanced progress without
clamping it to 1. -/
theorem c8_progress_exceeds_one_reachable :
    ReachableV0 c8State ∧ c8State.jumpProgress = 2 ∧ 1 < c8State.jumpProgress := by
  refine ⟨?_, ?_, ?_⟩
  · exact ReachableV0.tick 1000 600 false (2 / 5) (jump (initialGameState 600))
      (by norm_num)
      (ReachableV0.pressJump (initialGameState 600) rfl (ReachableV0.start 600))
  · norm_num [c8State, gameLoopStep, motionStep, initialGameState,
      obstacleSpawnRate, jump]
  · norm_num [c8State, gameLoopStep, motionStep, initialGameState,
      obstacleSpawnRate, jump]

/-- C8 amended: along every reachable part_000 state, `jumpProgress` is
nonnegative and stays strictly below 1 while a jump is in flight; it is
reset to 0 at jump start, but on the tick that completes a jump the stored
value is the raw advanced progress, which can exceed 1 (no clamping). -/
theorem c8_jump_progress_invariant (s : GameState) (hs : ReachableV0 s) :
    0 ≤ s.jumpProgress ∧ (s.isJumping = true → s.jumpProgress < 1) := by
  induction hs with
  | start winH => norm_num [initialGameState]
  | tick winW winH spawnLeft deltaTime s hdt hs ih =>
      exact gameLoopStep_progress_bounds winW winH spawnLeft deltaTime s hdt
        ih.1 ih.2
  | pressJump s hj hs ih => norm_num [jump]
  | pressReturn winW s hj hband hs ih => norm_num [returnToSameWall]
  | pressRestart winH s hgo hs ih => norm_num [restartGame]

/-- Witness for C8 amended at the initial state. -/
theorem c8_jump_progress_invariant_witness :
    0 ≤ (initialGameState 600).jumpProgress ∧
      ((initialGameState 600).isJumping = true →
        (initialGameState 600).jumpProgress < 1) :=
  c8_jump_progress_invariant (initialGameState 600) (ReachableV0.start 600)

/-- C1: evaluation of the code at the failing trace.  A fresh left-wall jump
is taken to mid-flight (`c1Mid`: centre 500, inside the band [450, 550],
still on the left wall), the secondary action initiates a same-wall return,
and two further 0.1 s ticks resolve the jump; because the pre-resolution
`jumpProgress` is 0.5 and not 0, the code classifies the return jump as a
normal jump and flips the wall: the resolved state is on the right wall,
contradicting the claim that a return jump preserves `onLeftWall`. -/
theorem c1_return_jump_resolves_to_opposite_wall :
    c1Mid.isJumping = true ∧ c1Mid.isOnLeftWall = true ∧
      c1Mid.playerX + c1Mid.playerSize / 2 = 500 ∧
      (returnToSameWall c1Mid).isOnLeftWall = true ∧
      (returnToSameWall c1Mid).jumpProgress = 0 ∧
      c1End.isJumping = false ∧ c1End.isOnLeftWall = false := by
  norm_num [c1End, c1Mid, c1Rest, gameLoopStep, motionStep, initialGameState,
    obstacleSpawnRate, jump, returnToSameWall]

/-- C10: in the part_000 variant (80 px wide obstacles) a tick applied to a
state that is mid-jump never sets `gameOver`: the collision predicate is
conjoined with the negation of the jumping flag. -/
theorem c10_jumping_never_gameover (winW winH : ℚ) (spawnLeft : Bool)
    (deltaTime : ℚ) (s : GameState) (hgo : s.isGameOver = false)
    (hj : s.isJumping = true) :
    (gameLoopStep winW winH spawnLeft deltaTime s).isGameOver = false := by
  simp [gameLoopStep, hgo, hj]

/-- Witness for C10 on a concrete mid-jump state. -/
theorem c10_jumping_never_gameover_witness :
    (gameLoopStep 1000 600 false 1 (jump (initialGameState 600))).isGameOver =
      false :=
  c10_jumping_never_gameover 1000 600 false 1 (jump (initialGameState 600))
    rfl rfl
